import Mathlib

/-!
Verification of the client game-state machine of the Jamaican kart racing
game, shallowly embedded from src/frontend/app/index.tsx.

The component state (React useState hooks) is collected in one record
GameState; each event handler of the component becomes a pure function on
that record.  Network effects are represented by the requests the handler
issues (records of the JSON bodies built in the source) and, where an
operation's outcome depends on the collaborator, by an explicit outcome
parameter.
-/

/-- Game mode, embedding the gameState useState hook with values
menu, playing, paused and gameOver. -/
inductive GameMode where
  | menu
  | playing
  | paused
  | gameOver
deriving DecidableEq, Repr

/-- Player record, from the Player interface of the source. -/
structure Player where
  id : String
  name : String
  high_score : Nat
deriving DecidableEq, Repr

/-- Game session record, from the GameSession interface of the source. -/
structure GameSession where
  id : String
  player_id : String
  track_name : String
  score : Nat
  distance : Nat
  character_type : String
deriving DecidableEq, Repr

/-- Track record, from the Track interface of the source. -/
structure Track where
  id : String
  name : String
  display_name : String
  location_type : String
  character_type : String
  difficulty : String
  background_theme : String
deriving DecidableEq, Repr

/-- Dialogue payload, from the JamaicanDialogue interface of the source. -/
structure JamaicanDialogue where
  dialogue : String
  translation : String
deriving DecidableEq, Repr

/-- The component state: one field per useState hook of
JamaicanRacingGame.  The field jumpTimer records the pending
setTimeout of jumpCharacter (the remaining cooldown in milliseconds),
so that claims about the cooldown timer can be stated; it is some 600
exactly while the 600 ms jump timeout is pending and none otherwise. -/
structure GameState where
  gameState : GameMode
  currentPlayer : Option Player
  currentTrack : Option Track
  availableTracks : List Track
  gameSession : Option GameSession
  score : Nat
  distance : Nat
  dialogue : Option JamaicanDialogue
  isJumping : Bool
  jumpTimer : Option Nat
  isRunning : Bool
  isInitialized : Bool
deriving DecidableEq, Repr

/-- Body of the PUT request to api/game-sessions issued by endGame. -/
structure SessionUpdate where
  sessionId : String
  score : Nat
  distance : Nat
  time_played : Nat
  completed : Bool
deriving DecidableEq, Repr

/-- Body of the POST request to api/dialogue issued by endGame. -/
structure DialogueRequest where
  context : String
  track_name : String
  player_name : String
deriving DecidableEq, Repr

/-- JavaScript x || d on an optional string: the fallback d is used both
when the option is absent (undefined in the source) and when the string
is empty (falsy in JavaScript). -/
def jsOrElse (x : Option String) (d : String) : String :=
  match x with
  | some v => if v = "" then d else v
  | none => d

/-- The fallback track literal that appears in the initialization
timeout handler and in the catch branch of initializeGame. -/
def fallbackTrack : Track :=
  { id := "track_001"
    name := "jamaica_country"
    display_name := "Blue Mountain Trail"
    location_type := "country"
    character_type := "on_foot"
    difficulty := "easy"
    background_theme := "rural_mountains" }

/-- The fallback player literal of the initialization timeout handler. -/
def fallbackPlayer : Player :=
  { id := "temp", name := "General Da Jamaican Boy", high_score := 0 }

/-- The 5-second initialization timeout handler: when the app is not yet
initialized it installs the fallback player, the one-element fallback
track list and the fallback current track and marks the app initialized;
otherwise it does nothing.  It never writes gameState. -/
def initTimeoutHandler (s : GameState) : GameState :=
  if s.isInitialized then s
  else
    { s with
      currentPlayer := some fallbackPlayer
      availableTracks := [fallbackTrack]
      currentTrack := some fallbackTrack
      isInitialized := true }

/-- Outcome of the createSession call made by startGame: either the
session returned by the collaborator, or a network error. -/
inductive SessionResult where
  | ok (sess : GameSession)
  | err
deriving DecidableEq, Repr

/-- The startGame handler.  It returns early when no player or no track
is selected.  On a successful createSession call it stores the session,
resets score and distance to 0 and enters playing; when the call throws,
the catch branch only enters playing (offline mode), leaving score,
distance and gameSession untouched. -/
def startGame (s : GameState) (r : SessionResult) : GameState :=
  if s.currentPlayer = none ∨ s.currentTrack = none then s
  else
    match r with
    | SessionResult.ok sess =>
      { s with
        gameSession := some sess
        score := 0
        distance := 0
        gameState := GameMode.playing
        isRunning := true }
    | SessionResult.err =>
      { s with gameState := GameMode.playing, isRunning := true }

/-- The jumpCharacter handler: a no-op while a jump is in flight or
outside playing; otherwise it raises the jump flag, adds 50 to the
score and schedules the 600 ms timeout that lowers the flag. -/
def jumpCharacter (s : GameState) : GameState :=
  if s.isJumping = true ∨ s.gameState ≠ GameMode.playing then s
  else
    { s with
      isJumping := true
      score := s.score + 50
      jumpTimer := some 600 }

/-- Expiry of the jump timeout scheduled by jumpCharacter: lowers the
jump flag and clears the pending timer. -/
def jumpTimerExpire (s : GameState) : GameState :=
  { s with isJumping := false, jumpTimer := none }

/-- The pauseGame handler: sets paused and stops the run flag.  The
source function itself is unguarded; see the UI dispatch below for where
the pause button is actually rendered. -/
def pauseGame (s : GameState) : GameState :=
  { s with gameState := GameMode.paused, isRunning := false }

/-- The resumeGame handler: sets playing and raises the run flag. -/
def resumeGame (s : GameState) : GameState :=
  { s with gameState := GameMode.playing, isRunning := true }

/-- The resetGame handler: back to the menu, session discarded, counters
zeroed. -/
def resetGame (s : GameState) : GameState :=
  { s with
    gameState := GameMode.menu
    gameSession := none
    score := 0
    distance := 0 }

/-- The endGame handler.  It always sets gameOver and stops the run
flag; when a session exists it issues the session-update PUT (score,
distance, time_played = distance / 10 rounded down, completed = true)
and, on the successful path, the victory or defeat dialogue POST keyed
on score > 500.  The returned options are the request bodies issued;
with no session neither request is made. -/
def endGame (s : GameState) : GameState × Option SessionUpdate × Option DialogueRequest :=
  let s1 := { s with gameState := GameMode.gameOver, isRunning := false }
  match s.gameSession with
  | none => (s1, none, none)
  | some sess =>
    (s1,
     some
       { sessionId := sess.id
         score := s.score
         distance := s.distance
         time_played := s.distance / 10
         completed := true },
     some
       { context := if s.score > 500 then "victory" else "defeat"
         track_name := jsOrElse (s.currentTrack.map Track.name) "jamaica_country"
         player_name := jsOrElse (s.currentPlayer.map Player.name) "General Da Jamaican Boy" })

/-- The async continuation of endGame: when a dialogue request was
issued and the collaborator answers resp, setDialogue stores the
response; when no request was issued the displayed dialogue is left
alone. -/
def applyEndGame (s : GameState) (resp : JamaicanDialogue) : GameState :=
  let r := endGame s
  match r.2.2 with
  | some _ => { r.1 with dialogue := some resp }
  | none => r.1

/-- One tick of the scoring interval.  The source installs the 100 ms
interval only while gameState is playing and isRunning holds, so a tick
fires exactly under that guard; it increments distance by 1 and score
by 10. -/
def tick (s : GameState) : GameState :=
  if s.gameState = GameMode.playing ∧ s.isRunning = true then
    { s with distance := s.distance + 1, score := s.score + 10 }
  else s

/-- The auto-end effect on distance and gameState: when distance exceeds
200 while playing it calls endGame, otherwise it does nothing and issues
no request. -/
def checkAutoEnd (s : GameState) : GameState × Option SessionUpdate × Option DialogueRequest :=
  if s.distance > 200 ∧ s.gameState = GameMode.playing then endGame s
  else (s, none, none)

/-- Events that can occur while a race is in progress: a scoring tick, a
press of the jump area, and expiry of the jump timeout. -/
inductive GEvent where
  | tick
  | jump
  | jumpExpire
deriving DecidableEq, Repr

/-- Applies one in-race event to the state. -/
def stepEvent (s : GameState) : GEvent → GameState
  | GEvent.tick => tick s
  | GEvent.jump => jumpCharacter s
  | GEvent.jumpExpire => jumpTimerExpire s

/-- Runs a sequence of in-race events from a state. -/
def runEvents (s : GameState) : List GEvent → GameState
  | [] => s
  | e :: evs => runEvents (stepEvent s e) evs

/-- Bonus contributed by one event: a jump event contributes one exactly
when the jumpCharacter precondition holds at the state it hits (no jump
in flight, mode playing); other events contribute nothing. -/
def jumpBonusAt (s : GameState) : GEvent → Nat
  | GEvent.jump => if s.isJumping = true ∨ s.gameState ≠ GameMode.playing then 0 else 1
  | _ => 0

/-- Number of jump bonuses accrued along an event trace. -/
def countJumpBonuses (s : GameState) : List GEvent → Nat
  | [] => 0
  | e :: evs => jumpBonusAt s e + countJumpBonuses (stepEvent s e) evs

/-- User actions that drive mode transitions (the jump input is handled
separately by jumpCharacter and changes no mode). -/
inductive UAction where
  | startRace
  | pause
  | resume
  | endRace
  | reset
deriving DecidableEq, Repr

/-- Which action controls the component renders in each mode, read off
the render functions: the menu shows the start button, the playing
screen shows the pause button, the pause overlay shows resume and main
menu, the game-over overlay shows race again (startGame) and main menu.
No screen renders an explicit end control; endGame is reached only
through the auto-end effect. -/
def rendered : GameMode → UAction → Bool
  | GameMode.menu, UAction.startRace => true
  | GameMode.playing, UAction.pause => true
  | GameMode.paused, UAction.resume => true
  | GameMode.paused, UAction.reset => true
  | GameMode.gameOver, UAction.startRace => true
  | GameMode.gameOver, UAction.reset => true
  | _, _ => false

/-- The raw handler each action invokes when its control is pressed. -/
def applyUAction (s : GameState) (r : SessionResult) : UAction → GameState
  | UAction.startRace => startGame s r
  | UAction.pause => pauseGame s
  | UAction.resume => resumeGame s
  | UAction.endRace => (endGame s).1
  | UAction.reset => resetGame s

/-- UI-level dispatch: an action reaches its handler only when the
control that triggers it is rendered in the current mode. -/
def dispatch (s : GameState) (r : SessionResult) (a : UAction) : GameState :=
  if rendered s.gameState a then applyUAction s r a else s

/-- Modelled from the spec: the transition table of section 4.1, naming
for each mode the actions the spec lists as legal from it.  Used to
compare the table the spec states with the dispatch the code implements. -/
def legalTransition : GameMode → UAction → Bool
  | GameMode.menu, UAction.startRace => true
  | GameMode.playing, UAction.pause => true
  | GameMode.playing, UAction.endRace => true
  | GameMode.paused, UAction.resume => true
  | GameMode.paused, UAction.reset => true
  | GameMode.gameOver, UAction.reset => true
  | GameMode.gameOver, UAction.startRace => true
  | _, _ => false

/-- A fresh component state: menu mode, nothing loaded, all counters at
their useState initial values. -/
def baseState : GameState :=
  { gameState := GameMode.menu
    currentPlayer := none
    currentTrack := none
    availableTracks := []
    gameSession := none
    score := 0
    distance := 0
    dialogue := none
    isJumping := false
    jumpTimer := none
    isRunning := false
    isInitialized := false }

/-- A sample session as the collaborator would return it. -/
def sampleSession : GameSession :=
  { id := "sess_001"
    player_id := "temp"
    track_name := "jamaica_country"
    score := 0
    distance := 0
    character_type := "on_foot" }

/-- A second track, as backend data distinct from the fallback. -/
def backendTrack : Track :=
  { id := "track_002"
    name := "kingston_city"
    display_name := "Kingston Streets"
    location_type := "city"
    character_type := "vehicle"
    difficulty := "hard"
    background_theme := "urban_streets" }

/-- State right after a successful race start. -/
def c1Start : GameState :=
  { baseState with gameState := GameMode.playing, isRunning := true, isInitialized := true }

/-- Event trace of the worked example in the spec: three ticks, a jump,
two more ticks. -/
def c1Trace : List GEvent :=
  [GEvent.tick, GEvent.tick, GEvent.tick, GEvent.jump, GEvent.tick, GEvent.tick]

/-- An initialized state sitting in the menu. -/
def c2Menu : GameState := { baseState with isInitialized := true }

/-- A game-over state with nonzero counters and a player and track
selected, about to race again. -/
def c3Prior : GameState :=
  { baseState with
    gameState := GameMode.gameOver
    currentPlayer := some fallbackPlayer
    currentTrack := some fallbackTrack
    score := 999
    distance := 77
    isInitialized := true }

/-- A playing state whose distance just reached 200. -/
def c4At200 : GameState :=
  { baseState with
    gameState := GameMode.playing
    isRunning := true
    gameSession := some sampleSession
    score := 2000
    distance := 200
    isInitialized := true }

/-- A playing state whose distance just reached 201. -/
def c4Over : GameState := { c4At200 with distance := 201, score := 2010 }

/-- A mid-race playing state with no jump in flight. -/
def c5Playing : GameState :=
  { baseState with
    gameState := GameMode.playing
    isRunning := true
    score := 30
    distance := 3
    isInitialized := true }

/-- The same mid-race state, paused. -/
def c5Paused : GameState :=
  { c5Playing with gameState := GameMode.paused, isRunning := false }

/-- A playing state with a live session and a high score. -/
def c6State : GameState :=
  { baseState with
    gameState := GameMode.playing
    isRunning := true
    currentPlayer := some fallbackPlayer
    currentTrack := some fallbackTrack
    gameSession := some sampleSession
    score := 600
    distance := 55
    isInitialized := true }

/-- The welcome line shown before an offline race. -/
def c9Dialogue : JamaicanDialogue :=
  { dialogue := "Ready fi run through Jamaica, General?"
    translation := "Ready to run through Jamaica, General?" }

/-- A response the collaborator could send for an end-of-race dialogue. -/
def c9Resp : JamaicanDialogue :=
  { dialogue := "Big up yuhself!", translation := "Congratulations!" }

/-- A playing state reached through an offline start: no session, a
welcome dialogue still displayed. -/
def c9State : GameState :=
  { baseState with
    gameState := GameMode.playing
    isRunning := true
    score := 120
    distance := 12
    dialogue := some c9Dialogue
    isInitialized := true }

/-- A state whose initialization finished from backend data before the
timeout fired. -/
def c10State : GameState :=
  { baseState with
    isInitialized := true
    currentPlayer := some { id := "p1", name := "Backend Player", high_score := 250 }
    availableTracks := [fallbackTrack, backendTrack]
    currentTrack := some backendTrack }

/-! Helper lemmas about single events. -/

theorem stepEvent_gameState (s : GameState) (e : GEvent) :
    (stepEvent s e).gameState = s.gameState := by
  cases e with
  | tick => simp only [stepEvent, tick]; split <;> rfl
  | jump => simp only [stepEvent, jumpCharacter]; split <;> rfl
  | jumpExpire => rfl

theorem stepEvent_isRunning (s : GameState) (e : GEvent) :
    (stepEvent s e).isRunning = s.isRunning := by
  cases e with
  | tick => simp only [stepEvent, tick]; split <;> rfl
  | jump => simp only [stepEvent, jumpCharacter]; split <;> rfl
  | jumpExpire => rfl

theorem stepEvent_score_eq (s : GameState) (e : GEvent)
    (hp : s.gameState = GameMode.playing) (hr : s.isRunning = true) :
    (stepEvent s e).score + 10 * s.distance =
      s.score + 10 * (stepEvent s e).distance + 50 * jumpBonusAt s e := by
  cases e with
  | tick =>
    simp only [stepEvent, tick, jumpBonusAt, hp, hr]
    simp
    omega
  | jump =>
    by_cases hb : s.isJumping = true ∨ s.gameState ≠ GameMode.playing
    · simp [stepEvent, jumpCharacter, jumpBonusAt, hb]
    · simp [stepEvent, jumpCharacter, jumpBonusAt, hb]
      omega
  | jumpExpire => simp [stepEvent, jumpTimerExpire, jumpBonusAt]

theorem runEvents_score_eq (evs : List GEvent) : ∀ s : GameState,
    s.gameState = GameMode.playing → s.isRunning = true →
    (runEvents s evs).score + 10 * s.distance =
      s.score + 10 * (runEvents s evs).distance + 50 * countJumpBonuses s evs := by
  induction evs with
  | nil => intro s hp hr; simp [runEvents, countJumpBonuses]
  | cons e evs ih =>
    intro s hp hr
    have hg := stepEvent_gameState s e
    have hrn := stepEvent_isRunning s e
    have IH := ih (stepEvent s e) (hg.trans hp) (hrn.trans hr)
    have hstep := stepEvent_score_eq s e hp hr
    simp only [runEvents, countJumpBonuses]
    omega

/-! Claim theorems. -/

/-- Claim C1: while the mode is playing and the run flag holds, every
tick increments distance by exactly 1 and score by exactly 10, a jump
adds 50 to score without changing distance, and along any trace of
in-race events starting from a race begun with score 0 and distance 0
the invariant score equals 10 times distance plus 50 per accrued jump
bonus holds. -/
theorem c1_playing_scoring_invariant (s : GameState) (evs : List GEvent)
    (hp : s.gameState = GameMode.playing) (hr : s.isRunning = true)
    (h0 : s.score = 0) (hd : s.distance = 0) :
    (tick s).distance = s.distance + 1 ∧
    (tick s).score = s.score + 10 ∧
    (s.isJumping = false →
      (jumpCharacter s).score = s.score + 50 ∧
      (jumpCharacter s).distance = s.distance) ∧
    (runEvents s evs).score =
      10 * (runEvents s evs).distance + 50 * countJumpBonuses s evs := by
  refine ⟨?_, ?_, ?_, ?_⟩
  · simp [tick, hp, hr]
  · simp [tick, hp, hr]
  · intro hj
    constructor <;> simp [jumpCharacter, hj, hp]
  · have h := runEvents_score_eq evs s hp hr
    omega

/-- Witness for C1 on the worked example of the spec: three ticks, a
jump, two more ticks from a fresh race. -/
theorem c1_playing_scoring_invariant_witness :
    (runEvents c1Start c1Trace).score =
      10 * (runEvents c1Start c1Trace).distance + 50 * countJumpBonuses c1Start c1Trace :=
  (c1_playing_scoring_invariant c1Start c1Trace rfl rfl rfl rfl).2.2.2

/-- Every rendered control is one the transition table of the spec
allows in that mode (the converse fails only for the end action, whose
control no screen renders). -/
theorem rendered_le_legal (m : GameMode) (a : UAction)
    (h : legalTransition m a = false) : rendered m a = false := by
  cases a <;> cases m <;> simp_all [rendered, legalTransition]

/-- Claim C2, counterexample: the raw pauseGame handler invoked on a
menu state does not leave the mode at menu; it sets paused. -/
theorem c2_counterexample :
    c2Menu.gameState = GameMode.menu ∧
    (pauseGame c2Menu).gameState = GameMode.paused := ⟨rfl, rfl⟩

/-- Claim C2, amended: the handler functions themselves are unguarded,
but every action control is rendered only in modes where the transition
table allows the action, so an action dispatched through the UI from a
state where it is not a legal transition leaves the state unchanged. -/
theorem c2_ui_dispatch_noop (s : GameState) (r : SessionResult) (a : UAction)
    (h : legalTransition s.gameState a = false) :
    dispatch s r a = s := by
  have hrend := rendered_le_legal s.gameState a h
  simp [dispatch, hrend]

/-- Witness for C2: the pause action dispatched from the menu changes
nothing. -/
theorem c2_ui_dispatch_noop_witness :
    legalTransition c2Menu.gameState UAction.pause = false ∧
    dispatch c2Menu SessionResult.err UAction.pause = c2Menu :=
  ⟨rfl, c2_ui_dispatch_noop c2Menu SessionResult.err UAction.pause rfl⟩

/-- Claim C3, counterexample: when the createSession call fails, the
race still starts (mode playing) but score and distance keep their
prior values 999 and 77 instead of being reset to 0. -/
theorem c3_counterexample :
    (startGame c3Prior SessionResult.err).gameState = GameMode.playing ∧
    (startGame c3Prior SessionResult.err).score = 999 ∧
    (startGame c3Prior SessionResult.err).distance = 77 := by
  refine ⟨?_, ?_, ?_⟩ <;> rfl

/-- Claim C3, amended: with a player and a track selected, a race start
whose createSession call succeeds stores the new session and resets
score and distance to 0 and enters playing; when the call fails the game
enters playing offline but leaves score, distance and the session at
their prior values. -/
theorem c3_start_resets_only_online (s : GameState) (sess : GameSession)
    (hp : s.currentPlayer ≠ none) (ht : s.currentTrack ≠ none) :
    ((startGame s (SessionResult.ok sess)).score = 0 ∧
     (startGame s (SessionResult.ok sess)).distance = 0 ∧
     (startGame s (SessionResult.ok sess)).gameState = GameMode.playing ∧
     (startGame s (SessionResult.ok sess)).gameSession = some sess) ∧
    ((startGame s SessionResult.err).gameState = GameMode.playing ∧
     (startGame s SessionResult.err).score = s.score ∧
     (startGame s SessionResult.err).distance = s.distance ∧
     (startGame s SessionResult.err).gameSession = s.gameSession) := by
  have hcond : ¬ (s.currentPlayer = none ∨ s.currentTrack = none) := by
    rintro (h | h)
    · exact hp h
    · exact ht h
  constructor <;> refine ⟨?_, ?_, ?_, ?_⟩ <;> simp [startGame, hcond]

/-- Witness for C3 amended, at the concrete prior state with counters
999 and 77. -/
theorem c3_start_resets_only_online_witness :
    (startGame c3Prior (SessionResult.ok sampleSession)).score = 0 ∧
    (startGame c3Prior SessionResult.err).score = 999 := by
  have h := c3_start_resets_only_online c3Prior sampleSession (by decide) (by decide)
  exact ⟨h.1.1, h.2.2.1.trans rfl⟩

/-- Claim C7: pausing freezes the counters (a tick in the paused state
changes nothing), resuming keeps them, and the first tick after a resume
continues from the frozen values. -/
theorem c7_pause_resume_preserve_counters (s : GameState) :
    (pauseGame s).score = s.score ∧
    (pauseGame s).distance = s.distance ∧
    (pauseGame s).gameState = GameMode.paused ∧
    tick (pauseGame s) = pauseGame s ∧
    (resumeGame s).score = s.score ∧
    (resumeGame s).distance = s.distance ∧
    (resumeGame s).gameState = GameMode.playing ∧
    (tick (resumeGame s)).score = s.score + 10 ∧
    (tick (resumeGame s)).distance = s.distance + 1 := by
  refine ⟨rfl, rfl, rfl, ?_, rfl, rfl, rfl, ?_, ?_⟩
  · simp [tick, pauseGame]
  · simp [tick, resumeGame]
  · simp [tick, resumeGame]

/-- First projection of endGame always carries mode gameOver. -/
theorem endGame_fst_gameState (s : GameState) :
    (endGame s).1.gameState = GameMode.gameOver := by
  cases h : s.gameSession <;> simp [endGame, h]

/-- First projection of endGame always carries a cleared run flag. -/
theorem endGame_fst_isRunning (s : GameState) :
    (endGame s).1.isRunning = false := by
  cases h : s.gameSession <;> simp [endGame, h]

/-- On a state already in gameOver the auto-end effect does nothing and
issues no request. -/
theorem checkAutoEnd_gameOver (t : GameState)
    (h : t.gameState = GameMode.gameOver) :
    checkAutoEnd t = (t, none, none) := by
  have hc : ¬ (200 < t.distance ∧ t.gameState = GameMode.playing) := by
    rintro ⟨-, hx⟩
    rw [h] at hx
    exact GameMode.noConfusion hx
  unfold checkAutoEnd
  exact if_neg hc

/-- Claim C4, counterexample: at distance exactly 200 while playing the
auto-end effect does nothing; the mode stays playing instead of becoming
gameOver. -/
theorem c4_counterexample :
    c4At200.distance = 200 ∧
    c4At200.gameState = GameMode.playing ∧
    (checkAutoEnd c4At200).1.gameState = GameMode.playing := ⟨rfl, rfl, rfl⟩

/-- Claim C4, amended: once distance exceeds 200 (so first at distance
201) while playing, the auto-end effect sets gameOver and stops the run
flag, issues the finalization report when a session exists, and a second
run of the effect on the resulting state changes nothing and issues no
request, so the termination happens exactly once. -/
theorem c4_auto_end_once (s : GameState)
    (hd : s.distance > 200) (hg : s.gameState = GameMode.playing) :
    (checkAutoEnd s).1.gameState = GameMode.gameOver ∧
    (checkAutoEnd s).1.isRunning = false ∧
    checkAutoEnd (checkAutoEnd s).1 = ((checkAutoEnd s).1, none, none) ∧
    (∀ sess, s.gameSession = some sess →
      (checkAutoEnd s).2.1 =
        some
          { sessionId := sess.id
            score := s.score
            distance := s.distance
            time_played := s.distance / 10
            completed := true }) := by
  have h1 : checkAutoEnd s = endGame s := by
    unfold checkAutoEnd
    exact if_pos ⟨hd, hg⟩
  have hg2 : (checkAutoEnd s).1.gameState = GameMode.gameOver := by
    rw [h1]; exact endGame_fst_gameState s
  refine ⟨hg2, ?_, ?_, ?_⟩
  · rw [h1]; exact endGame_fst_isRunning s
  · exact checkAutoEnd_gameOver _ hg2
  · intro sess hsess
    rw [h1]
    simp [endGame, hsess]

/-- Witness for C4 amended, at the concrete playing state with distance
201 and a live session. -/
theorem c4_auto_end_once_witness :
    (checkAutoEnd c4Over).1.gameState = GameMode.gameOver ∧
    checkAutoEnd (checkAutoEnd c4Over).1 = ((checkAutoEnd c4Over).1, none, none) := by
  have h := c4_auto_end_once c4Over (by decide) rfl
  exact ⟨h.1, h.2.2.1⟩

/-- Claim C5: a jump taken while playing with no jump in flight raises
the flag, adds exactly 50 to the score, arms the 600 ms timer and leaves
distance alone; a jump while one is in flight, or outside playing, is a
complete no-op, so a second call within the cooldown window changes
nothing, adds nothing and does not touch the pending timer. -/
theorem c5_jump_semantics (s : GameState) :
    (s.gameState = GameMode.playing → s.isJumping = false →
      (jumpCharacter s).isJumping = true ∧
      (jumpCharacter s).score = s.score + 50 ∧
      (jumpCharacter s).jumpTimer = some 600 ∧
      (jumpCharacter s).distance = s.distance ∧
      jumpCharacter (jumpCharacter s) = jumpCharacter s) ∧
    (s.isJumping = true → jumpCharacter s = s) ∧
    (s.gameState ≠ GameMode.playing → jumpCharacter s = s) := by
  refine ⟨?_, ?_, ?_⟩
  · intro hg hj
    have hc : ¬ (s.isJumping = true ∨ s.gameState ≠ GameMode.playing) := by
      simp [hj, hg]
    have h1 : jumpCharacter s =
        { s with isJumping := true, score := s.score + 50, jumpTimer := some 600 } := by
      unfold jumpCharacter
      exact if_neg hc
    refine ⟨by rw [h1], by rw [h1], by rw [h1], by rw [h1], ?_⟩
    rw [h1]
    unfold jumpCharacter
    exact if_pos (Or.inl rfl)
  · intro hj
    unfold jumpCharacter
    exact if_pos (Or.inl hj)
  · intro hg
    unfold jumpCharacter
    exact if_pos (Or.inr hg)

/-- Witness for C5: from the mid-race state a jump yields score 80, a
second immediate jump changes nothing, and a jump while paused is a
no-op. -/
theorem c5_jump_semantics_witness :
    (jumpCharacter c5Playing).score = 80 ∧
    jumpCharacter (jumpCharacter c5Playing) = jumpCharacter c5Playing ∧
    jumpCharacter c5Paused = c5Paused := by
  have h1 := c5_jump_semantics c5Playing
  have h2 := c5_jump_semantics c5Paused
  exact ⟨((h1.1 rfl rfl).2.1).trans rfl, (h1.1 rfl rfl).2.2.2.2, h2.2.2 (by decide)⟩

/-- Claim C6: when the race ends with a session present, the
finalization request carries the current score, the current distance,
time_played equal to distance divided by 10 rounded down and
completed true, and the follow-up dialogue request uses context victory
exactly when score exceeds 500 and defeat otherwise. -/
theorem c6_finalization_report (s : GameState) (sess : GameSession)
    (h : s.gameSession = some sess) :
    ∃ upd req,
      (endGame s).2.1 = some upd ∧
      (endGame s).2.2 = some req ∧
      upd.score = s.score ∧
      upd.distance = s.distance ∧
      upd.time_played = s.distance / 10 ∧
      upd.completed = true ∧
      (s.score > 500 → req.context = "victory") ∧
      (¬ s.score > 500 → req.context = "defeat") := by
  refine
    ⟨{ sessionId := sess.id
       score := s.score
       distance := s.distance
       time_played := s.distance / 10
       completed := true },
     { context := if s.score > 500 then "victory" else "defeat"
       track_name := jsOrElse (s.currentTrack.map Track.name) "jamaica_country"
       player_name := jsOrElse (s.currentPlayer.map Player.name) "General Da Jamaican Boy" },
     ?_, ?_, rfl, rfl, rfl, rfl, ?_, ?_⟩
  · simp [endGame, h]
  · simp [endGame, h]
  · intro hgt
    exact if_pos hgt
  · intro hle
    exact if_neg hle

/-- Witness for C6 at a concrete finished race with score 600 and
distance 55. -/
theorem c6_finalization_report_witness :
    ∃ upd req,
      (endGame c6State).2.1 = some upd ∧
      (endGame c6State).2.2 = some req ∧
      upd.score = 600 ∧
      upd.distance = 55 ∧
      upd.time_played = 5 ∧
      upd.completed = true ∧
      req.context = "victory" := by
  obtain ⟨upd, req, h1, h2, h3, h4, h5, h6, h7, h8⟩ :=
    c6_finalization_report c6State sampleSession rfl
  exact ⟨upd, req, h1, h2, h3.trans rfl, h4.trans rfl, h5.trans rfl, h6, h7 (by decide)⟩

/-- Claim C8: when the app is still uninitialized as the 5-second
timeout fires, the fallback handler installs exactly the temp player,
exactly the one fallback track as the track list, selects that track,
marks the app initialized and leaves the mode at menu. -/
theorem c8_timeout_fallback (s : GameState)
    (h : s.isInitialized = false) (hm : s.gameState = GameMode.menu) :
    (initTimeoutHandler s).currentPlayer =
      some { id := "temp", name := "General Da Jamaican Boy", high_score := 0 } ∧
    (initTimeoutHandler s).availableTracks = [fallbackTrack] ∧
    (initTimeoutHandler s).currentTrack = some fallbackTrack ∧
    (initTimeoutHandler s).gameState = GameMode.menu ∧
    (initTimeoutHandler s).isInitialized = true := by
  refine ⟨?_, ?_, ?_, ?_, ?_⟩ <;> simp [initTimeoutHandler, h, hm, fallbackPlayer]

/-- Witness for C8 at the fresh uninitialized menu state. -/
theorem c8_timeout_fallback_witness :
    (initTimeoutHandler baseState).currentPlayer = some fallbackPlayer ∧
    (initTimeoutHandler baseState).availableTracks = [fallbackTrack] ∧
    (initTimeoutHandler baseState).gameState = GameMode.menu := by
  have h := c8_timeout_fallback baseState rfl rfl
  exact ⟨h.1.trans rfl, h.2.1, h.2.2.2.1⟩

/-- Claim C9: ending a race with no session still sets gameOver and
stops the scoring loop, but issues neither the finalization report nor a
dialogue request, and the displayed dialogue is unchanged. -/
theorem c9_end_without_session (s : GameState) (resp : JamaicanDialogue)
    (h : s.gameSession = none) :
    (endGame s).1.gameState = GameMode.gameOver ∧
    (endGame s).1.isRunning = false ∧
    (endGame s).2.1 = none ∧
    (endGame s).2.2 = none ∧
    applyEndGame s resp = { s with gameState := GameMode.gameOver, isRunning := false } ∧
    (applyEndGame s resp).dialogue = s.dialogue := by
  refine ⟨?_, ?_, ?_, ?_, ?_, ?_⟩ <;> simp [endGame, applyEndGame, h]

/-- Witness for C9 at the offline playing state. -/
theorem c9_end_without_session_witness :
    (endGame c9State).2.1 = none ∧
    (endGame c9State).2.2 = none ∧
    (applyEndGame c9State c9Resp).dialogue = some c9Dialogue := by
  have h := c9_end_without_session c9State c9Resp rfl
  exact ⟨h.2.2.1, h.2.2.2.1, h.2.2.2.2.2.trans rfl⟩

/-- Claim C10: when initialization already finished as the timeout
handler runs, the handler is the identity; in particular the fetched
player, track list and selected track are never overwritten by the
fallback data. -/
theorem c10_timeout_preserves_backend_data (s : GameState)
    (h : s.isInitialized = true) :
    (initTimeoutHandler s).currentPlayer = s.currentPlayer ∧
    (initTimeoutHandler s).availableTracks = s.availableTracks ∧
    (initTimeoutHandler s).currentTrack = s.currentTrack ∧
    initTimeoutHandler s = s := by
  have h1 : initTimeoutHandler s = s := by
    simp [initTimeoutHandler, h]
  exact ⟨by rw [h1], by rw [h1], by rw [h1], h1⟩

/-- Witness for C10 at a state holding backend data. -/
theorem c10_timeout_preserves_backend_data_witness :
    initTimeoutHandler c10State = c10State :=
  (c10_timeout_preserves_backend_data c10State rfl).2.2.2
